import Mathlib

/-!
Shallow embedding of `src/jmetal/algorithm/multiobjective/smpso.py` (the SMPSO
particle-swarm optimizer) and verification of the frozen claims about it.

Conventions of the embedding:
* Python floats are modelled as exact rationals (`ℚ`) in the purely structural
  parts and as real numbers (`ℝ`) where the code takes a square root
  (`__constriction_coefficient`); rounding of IEEE arithmetic is not modelled.
* Fallible Python operations (subscript errors, missing attributes, missing
  `return` statements) are modelled with `Option`: `none` is a raised
  exception / returned `None`.
* The source invokes `Random.sample` / `Random.random` / `Random.uniform` on
  the `random.Random` class rather than on an instance; in Python every such
  call raises `TypeError`, and the embedding models them as always-raising
  operations. Where drawn values do reach a numeric recurrence (the inner
  velocity loop, lines 113-119), they are passed as explicit arguments.
* Components of the repository that are not under `src/` (the `FloatSolution`
  entity, `DominanceComparator`, `BoundedArchive`) are modelled from the spec;
  each such definition carries a doc comment saying so.
-/

namespace SMPSO

/-- Python list subscripts: either an integer or a float. `update_position`
iterates `for j in particle.variables`, so its subscripts are floats. -/
inductive PySubscript (α : Type) where
  | ofInt (n : ℤ)
  | ofFloat (x : α)

/-- Python `list.__getitem__`: a nonnegative integer subscript indexes from the
front, a negative one from the back, and an out-of-range subscript raises
`IndexError` (modelled `none`). A float subscript raises `TypeError` regardless
of its value (`lst[2.0]` is an error in Python), also modelled `none`. -/
def py_list_get {α : Type} (xs : List α) : PySubscript α → Option α
  | .ofInt n =>
      if 0 ≤ n then xs.get? n.toNat
      else if (-n).toNat ≤ xs.length then xs.get? (xs.length - (-n).toNat)
      else none
  | .ofFloat _ => none

/-- Python `list.__setitem__`, with the same subscript semantics as
`py_list_get`: float subscripts raise `TypeError` (modelled `none`). -/
def py_list_set {α : Type} (xs : List α) : PySubscript α → α → Option (List α)
  | .ofInt n, v =>
      if 0 ≤ n then (if n.toNat < xs.length then some (xs.set n.toNat v) else none)
      else if (-n).toNat ≤ xs.length then some (xs.set (xs.length - (-n).toNat) v)
      else none
  | .ofFloat _, _ => none

/-- Modelled from the spec (the `FloatSolution` class is not under `src/`):
variable vector and objective vector of a solution ("decision-variable vector,
objective vector", spec section 3). Used as the value stored in a solution's
attribute map (the algorithm only ever reads `variables` and `objectives` of a
stored `local_best`). -/
structure BareSolution (α : Type) where
  «variables» : List α
  objectives : List α
deriving DecidableEq

/-- Modelled from the spec (the `FloatSolution` class is not under `src/`):
"decision-variable vector, objective vector, auxiliary attribute map"
(spec section 3). The attribute map is a string-keyed association list whose
lookups take the most recently written binding, like a Python dict. -/
structure Solution (α : Type) where
  «variables» : List α
  objectives : List α
  attributes : List (String × BareSolution α)
deriving DecidableEq

/-- Python attribute lookup `solution.attribute` (note: no final `s`), as
performed by `update_particle_best` at line 148 of `smpso.py`. The Solution
entity has fields `variables`, `objectives` and `attributes` only (spec
section 3); there is no field named `attribute`, so this lookup raises
`AttributeError` on every solution object, modelled as `none`. -/
def attribute_field {α : Type} (_s : Solution α) :
    Option (List (String × BareSolution α)) :=
  none

/-- Dict write `solution.attributes[key] = value`: prepend the binding; lookups
via `List.lookup` see the newest binding, matching Python dict update. -/
def set_attribute {α : Type} (s : Solution α) (key : String) (v : BareSolution α) :
    Solution α :=
  { s with attributes := (key, v) :: s.attributes }

/-- Modelled from the spec: copying a solution yields an independent copy
("the archive owns independent copies", spec section 3). At the value level of
this embedding copying is the identity; aliasing is studied separately in the
heap model below. -/
def py_copy {α : Type} (s : Solution α) : Solution α := s

/-- The forgetful view of a solution used when a full solution is stored in an
attribute map (`particle.attributes["local_best"] = copy(particle)`). -/
def bare {α : Type} (s : Solution α) : BareSolution α :=
  ⟨s.«variables», s.objectives⟩

/-- Modelled from the spec (the `DominanceComparator` class is not under
`src/`): `a` dominates `b` when every objective of `a` is less than or equal to
the corresponding objective of `b` and at least one is strictly less
(spec section 4.1). -/
def dominates_objectives {α : Type} [LinearOrder α] (a b : List α) : Bool :=
  ((a.zip b).all fun p => decide (p.1 ≤ p.2)) &&
    ((a.zip b).any fun p => decide (p.1 < p.2))

/-- Modelled from the spec (the `DominanceComparator` class is not under
`src/`): "compare(a, b) -> {-1, 0, 1} where -1 means a dominates b, 1 means b
dominates a, 0 means neither dominates the other" (spec section 4.1). -/
def dominance_compare {α : Type} [LinearOrder α] (a b : Solution α) : Int :=
  if dominates_objectives a.objectives b.objectives then -1
  else if dominates_objectives b.objectives a.objectives then 1
  else 0

/-- As `dominance_compare`, but the right-hand solution is a bare solution
(the value stored under the `"local_best"` attribute key). -/
def dominance_compare_bare {α : Type} [LinearOrder α]
    (a : Solution α) (b : BareSolution α) : Int :=
  if dominates_objectives a.objectives b.objectives then -1
  else if dominates_objectives b.objectives a.objectives then 1
  else 0

/-- Index of the first occurrence of the minimal element of a list of scores
(first-encountered tie-break); `0` on the empty list. -/
def idxOfMin {α : Type} [LinearOrder α] (scores : List α) : ℕ :=
  match scores with
  | [] => 0
  | s₀ :: _ =>
      (scores.enum.foldl
        (fun best p => if p.2 < best.2 then (p.1, p.2) else best) (0, s₀)).1

/-- Modelled from the spec (the `BoundedArchive` class is not under `src/`),
spec section 4.3: `add` deep-copies the candidate; if any member dominates it,
reject; otherwise remove the members the candidate dominates (a no-op in the
mutually-non-dominated case) and insert the candidate; if the capacity is then
exceeded, evict the single member with the lowest density score among current
members, first-encountered tie-break. The density estimator lives outside
`src/` as well, so it is taken as a parameter `dens` scoring a member relative
to the member set. -/
def leaders_add {α : Type} [LinearOrder α] (cap : ℕ)
    (dens : List (Solution α) → Solution α → α)
    (leaders : List (Solution α)) (candidate : Solution α) :
    List (Solution α) :=
  let p := py_copy candidate
  if leaders.any (fun m => dominates_objectives m.objectives p.objectives) then
    leaders
  else
    let survivors :=
      leaders.filter (fun m => ! dominates_objectives p.objectives m.objectives)
    let newLeaders := survivors ++ [p]
    if cap < newLeaders.length then
      newLeaders.eraseIdx (idxOfMin (newLeaders.map (dens newLeaders)))
    else newLeaders

/-- The mutable state of an `SMPSO` instance, value-level view: the fields set
by the constructor (lines 29-58 of `smpso.py`) that the claims are about. The
swarm and the archive hold solution values; aliasing questions are treated in
the heap model below. -/
structure AlgoState (α : Type) where
  swarm : List (Solution α)
  leaders : List (Solution α)
  speed : List (List α)
  evaluations : ℕ
  max_evaluations : ℕ
  swarm_size : ℕ
deriving DecidableEq

/-- Translation of `is_stopping_condition_reached` (lines 73-74):
`self.evaluations >= self.max_evaluations`. -/
def is_stopping_condition_reached {α : Type} (st : AlgoState α) : Bool :=
  decide (st.evaluations ≥ st.max_evaluations)

/-- Translation of `get_result` (lines 153-154). The body evaluates the
expression `self.leaders.solution_list` but contains no `return` statement, so
the Python call returns `None`, modelled as `none`. -/
def get_result {α : Type} (st : AlgoState α) : Option (List (Solution α)) :=
  let _solution_list := st.leaders
  none

/-- Translation of `initialize_global_best` (lines 87-89): every particle of
`self.swarm` is added to the leaders archive (note: the particle itself, with
no call-site `copy`). The `swarm` parameter of the method is ignored by its
body. -/
def initialize_global_best {α : Type} [LinearOrder α] (cap : ℕ)
    (dens : List (Solution α) → Solution α → α)
    (st : AlgoState α) (_swarm : List (Solution α)) : AlgoState α :=
  { st with leaders := st.swarm.foldl (fun ls p => leaders_add cap dens ls p) st.leaders }

/-- Translation of `initialize_particle_best` (lines 91-93): each particle of
`self.swarm` gets `attributes["local_best"] = copy(particle)`. The `swarm`
parameter of the method is ignored by its body. -/
def initialize_particle_best {α : Type} (st : AlgoState α)
    (_swarm : List (Solution α)) : AlgoState α :=
  { st with swarm := st.swarm.map (fun p => set_attribute p "local_best" (bare (py_copy p))) }

/-- Translation of `perturbation` (lines 136-138): the external mutation
operator `mutOp` is applied to each particle of `self.swarm` in place. The
`swarm` parameter of the method is ignored by its body. -/
def perturbation {α : Type} (mutOp : Solution α → Solution α)
    (st : AlgoState α) (_swarm : List (Solution α)) : AlgoState α :=
  { st with swarm := st.swarm.map mutOp }

/-- Translation of `update_global_best` (lines 140-142): a copy of every
particle of `self.swarm` is added to the leaders archive. The `swarm` parameter
of the method is ignored by its body. -/
def update_global_best {α : Type} [LinearOrder α] (cap : ℕ)
    (dens : List (Solution α) → Solution α → α)
    (st : AlgoState α) (_swarm : List (Solution α)) : AlgoState α :=
  { st with leaders := st.swarm.foldl (fun ls p => leaders_add cap dens ls (py_copy p)) st.leaders }

/-- Translation of `update_particle_best` (lines 144-151): for each
`i < swarm_size`, compare `self.swarm[i]` with
`self.swarm[i].attribute["local_best"]` and, when the flag differs from `1`
(source: `flag is not 1`; for CPython's cached small integers `is not` agrees
with `!=`), store a copy of the particle under `swarm[i].attributes`. The read
goes through the nonexistent field `attribute` — see `attribute_field` — so in
Python the first iteration raises `AttributeError`. The method writes into its
`swarm` parameter, so the (would-be) updated parameter is the result. -/
def update_particle_best {α : Type} [LinearOrder α] (st : AlgoState α)
    (swarm : List (Solution α)) : Option (List (Solution α)) :=
  (List.range st.swarm_size).foldlM
    (fun sw i => do
      let particle ← st.swarm.get? i
      let attrMap ← attribute_field particle
      let localBest ← attrMap.lookup "local_best"
      let flag := dominance_compare_bare particle localBest
      if flag ≠ 1 then do
        let target ← sw.get? i
        pure (sw.set i (set_attribute target "local_best" (bare (py_copy particle))))
      else
        pure sw)
    swarm

/-- Python evaluation of `Random.sample(population, 2)` as written at line
160: `sample` is an instance method of the class `random.Random`, accessed on
the class itself, so the call binds `population` to the method's `self`
parameter and `2` to its `population` parameter, leaving the required `k`
argument missing. Every such call raises
`TypeError: sample() missing 1 required positional argument: 'k'` — before
any drawing happens and regardless of the population's size. Modelled as an
always-raising operation over the written arguments. -/
def Random_sample_classcall {α : Type} (_population : List α) (_k : ℕ) :
    Option (List α) :=
  none

/-- Python evaluation of `Random.random()` as written at lines 104-105:
`random` is an instance method of `random.Random` called on the class with no
arguments, so the mandatory `self` is missing and every call raises
`TypeError`. Modelled as an always-raising operation. -/
def Random_random_classcall : Option ℝ :=
  none

/-- Python evaluation of `Random.uniform(a, b)` as written at lines 107-108:
the class-call binds `a` to the method's `self` and `b` to its lower endpoint,
leaving the upper endpoint missing, so every call raises `TypeError`.
Modelled as an always-raising operation over the written arguments. -/
def Random_uniform_classcall (_a _b : ℝ) : Option ℝ :=
  none

/-- Acceleration-coefficient bound set by the constructor (line 39). -/
def c1_min : ℝ := 1.5

/-- Acceleration-coefficient bound set by the constructor (line 40). -/
def c1_max : ℝ := 2.5

/-- Acceleration-coefficient bound set by the constructor (line 41). -/
def c2_min : ℝ := 1.5

/-- Acceleration-coefficient bound set by the constructor (line 42). -/
def c2_max : ℝ := 2.5

/-- Translation of `__select_global_best` (lines 156-166): `best_global` is
initialized to `None`, then `particles = Random.sample(self.leaders.solution_list, 2)`
— a class-call that raises `TypeError` on every invocation (see
`Random_sample_classcall`), so the comparator tournament on
`particles[0]`/`particles[1]` and the `copy` of the winner below it are
unreachable; the translation carries them after the failing bind. The
archive's comparator `cmp` (the archive class is outside `src/`) is a
parameter. -/
def select_global_best {α : Type}
    (cmp : Solution α → Solution α → Int)
    (solution_list : List (Solution α)) : Option (Solution α) := do
  let particles ← Random_sample_classcall solution_list 2
  let p₀ ← particles.get? 0
  let p₁ ← particles.get? 1
  if cmp p₀ p₁ < 1 then pure (py_copy p₀) else pure (py_copy p₁)

/-- Translation of the constructor's `delta_max` computation (lines 53-56):
`delta_max[i] = (upper_bound[i] - lower_bound[i]) / 2.0`. Out-of-range indices
never occur in the source loops; they default to `0`. -/
def delta_max {α : Type} [LinearOrderedField α] (lower upper : List α) (i : ℕ) : α :=
  (upper.getD i 0 - lower.getD i 0) / 2

/-- Translation of line 58: `self.delta_min = -1.0 * self.delta_max`. -/
def delta_min {α : Type} [LinearOrderedField α] (lower upper : List α) (i : ℕ) : α :=
  -1 * delta_max lower upper i

/-- Translation of `__velocity_constriction` (lines 168-176), with its
sequence of assignments kept: `result = None`; overwrite with `delta_max` when
the value is above it; overwrite with `delta_min` when the value is below it;
return `result`. In particular the function returns Python `None` (`none`)
whenever the value lies inside `[delta_min, delta_max]`. -/
def velocity_constriction {α : Type} [LinearOrder α]
    (dmin dmax value : α) : Option α :=
  let result : Option α := none
  let result := if value > dmax then some dmax else result
  let result := if value < dmin then some dmin else result
  result

/-- Inertia weight bounds set by the constructor (lines 44-45):
`self.min_weight = 0.1` and `self.max_weight = 0.1`. -/
def min_weight : ℝ := 0.1

/-- See `min_weight`; `update_velocity` reads this one as `wmax`. -/
def max_weight : ℝ := 0.1

/-- Translation of `__constriction_coefficient` (lines 178-186): with
`rho = c1 + c2`, return `1.0` when `rho ≤ 4` and otherwise
`2.0 / (2.0 - rho - sqrt(rho² - 4·rho))`. (`pow(rho, 2.0)` agrees with `rho ^ 2`
on the branch where it is evaluated, since there `rho > 4 > 0`.) -/
noncomputable def constriction_coefficient (c1 c2 : ℝ) : ℝ :=
  let rho := c1 + c2
  if rho ≤ 4 then 1.0
  else 2.0 / (2.0 - rho - Real.sqrt (rho ^ 2 - 4.0 * rho))

/-- Translation of the inner loop of `update_velocity` (lines 113-119) for one
particle: for each variable index `var`, the raw velocity
`χ(c1,c2) · (wmax · speed[i][var] + c1·r1·(best_particle[var] − particle[var])
+ c2·r2·(best_global[var] − particle[var]))` is passed through
`__velocity_constriction` and assigned to `speed[i][var]`. A `None` result of
the constriction makes the numpy float-array assignment raise `TypeError`,
modelled by the `Option` bind. Out-of-range reads (which do not occur when the
rows have `nvars` entries) default to `0`. -/
noncomputable def update_velocity_row (lower upper : List ℝ)
    (r1 r2 c1 c2 : ℝ) (particle best_particle best_global : List ℝ)
    (nvars : ℕ) (row : List ℝ) : Option (List ℝ) :=
  (List.range nvars).foldlM
    (fun r var => do
      let raw := constriction_coefficient c1 c2 *
        (max_weight * r.getD var 0 +
         c1 * r1 * (best_particle.getD var 0 - particle.getD var 0) +
         c2 * r2 * (best_global.getD var 0 - particle.getD var 0))
      let clamped ← velocity_constriction
        (delta_min lower upper var) (delta_max lower upper var) raw
      pure (r.set var clamped))
    row

/-- Translation of `update_velocity` (lines 98-119), statement for statement:
for each `i < swarm_size`, read copies of `self.swarm[i]` and of its
`"local_best"` attribute (lines 100-101), call `__select_global_best`
(line 102 — raises `TypeError` on every call, see `Random_sample_classcall`),
draw `r1`, `r2` via `Random.random()` and `c1`, `c2` via
`Random.uniform(c1_min, c1_max)` / `Random.uniform(c2_min, c2_max)`
(lines 104-108 — class-calls that likewise raise `TypeError`), and rewrite row
`i` of `self.speed` through the inner loop (`update_velocity_row`). With at
least one particle the body fails at its first iteration, before any
assignment; the only field the method would assign to is `self.speed`. The
`swarm` parameter of the method is ignored by its body. -/
noncomputable def update_velocity (cmp : Solution ℝ → Solution ℝ → Int)
    (lower upper : List ℝ) (nvars : ℕ)
    (st : AlgoState ℝ) (_swarm : List (Solution ℝ)) : Option (AlgoState ℝ) := do
  let speed' ← (List.range st.swarm_size).foldlM
    (fun sp i => do
      let particle ← Option.map py_copy (st.swarm.get? i)
      let best_particle ← particle.attributes.lookup "local_best"
      let best_global ← select_global_best cmp st.leaders
      let r1 ← Random_random_classcall
      let r2 ← Random_random_classcall
      let c1 ← Random_uniform_classcall c1_min c1_max
      let c2 ← Random_uniform_classcall c2_min c2_max
      let row ← sp.get? i
      let row' ← update_velocity_row lower upper r1 r2 c1 c2
        particle.«variables» best_particle.«variables» best_global.«variables»
        nvars row
      pure (sp.set i row'))
    st.speed
  pure { st with speed := speed' }

/-- Translation of the per-particle body of `update_position` (lines 121-134).
The source iterates `for j in particle.variables`, so `j` ranges over the
float values of the variables, not over positions, and every subscript in the
body (`particle.variables[j]`, `self.speed[i][j]`) is a float subscript, which
raises `TypeError` (see `py_list_get`). The statements after the first
assignment — the bound checks against `lower_bound[j]` / `upper_bound[j]` and
the velocity reversals by `change_velocity1` / `change_velocity2` — are
unreachable for every iteration, since the very first read already raises; the
translation carries them up to that first failure. -/
def update_position_particle {α : Type} [LinearOrderedField α]
    (lower upper : List α) (cv1 cv2 : α)
    (vars0 row0 : List α) : Option (List α × List α) :=
  vars0.foldlM
    (fun (st : List α × List α) j => do
      let xj ← py_list_get st.1 (.ofFloat j)
      let vj ← py_list_get st.2 (.ofFloat j)
      let vars1 ← py_list_set st.1 (.ofFloat j) (xj + vj)
      let x1 ← py_list_get vars1 (.ofFloat j)
      let lbj ← py_list_get lower (.ofFloat j)
      let st1 ← if x1 < lbj then do
          let vars2 ← py_list_set vars1 (.ofFloat j) lbj
          let v1 ← py_list_get st.2 (.ofFloat j)
          let row2 ← py_list_set st.2 (.ofFloat j) (v1 * cv1)
          pure (vars2, row2)
        else pure (vars1, st.2)
      let x2 ← py_list_get st1.1 (.ofFloat j)
      let ubj ← py_list_get upper (.ofFloat j)
      if x2 > ubj then do
        let vars3 ← py_list_set st1.1 (.ofFloat j) ubj
        let v2 ← py_list_get st1.2 (.ofFloat j)
        let row3 ← py_list_set st1.2 (.ofFloat j) (v2 * cv2)
        pure (vars3, row3)
      else pure st1)
    (vars0, row0)

/-! ### Heap model

The value-level state above cannot express aliasing between the swarm and the
archive, so the archive-insertion paths are replayed over an explicit store:
object references are indices into `store`, the swarm and the leaders archive
hold references, and allocating a copy appends a fresh cell. -/

/-- Heap-level algorithm state: `store` holds the solution objects, `swarm`
and `leaders` hold references (indices) into it. -/
structure HeapState (α : Type) where
  store : List (Solution α)
  swarm : List ℕ
  leaders : List ℕ
deriving DecidableEq

/-- The solution object a reference designates (defaulting to an empty solution
on a dangling reference, which well-formed states never contain). -/
def payload {α : Type} (store : List (Solution α)) (r : ℕ) : Solution α :=
  store.getD r ⟨[], [], []⟩

/-- Heap-level `BoundedArchive.add`, the same spec-modelled logic as
`leaders_add` but with the deep copy made explicit: the candidate's payload is
copied into a fresh cell, and the archive only ever stores the fresh
reference, never the caller's. -/
def archive_add {α : Type} [LinearOrder α] (cap : ℕ)
    (dens : List (Solution α) → Solution α → α)
    (st : HeapState α) (r : ℕ) : HeapState α :=
  match st.store.get? r with
  | none => st
  | some p =>
      let fresh := st.store.length
      let store' := st.store ++ [p]
      if st.leaders.any
          (fun m => dominates_objectives (payload store' m).objectives p.objectives) then
        { st with store := store' }
      else
        let survivors := st.leaders.filter
          (fun m => ! dominates_objectives p.objectives (payload store' m).objectives)
        let newLeaders := survivors ++ [fresh]
        if cap < newLeaders.length then
          { store := store', swarm := st.swarm,
            leaders := newLeaders.eraseIdx
              (idxOfMin (newLeaders.map (fun m => dens (newLeaders.map (payload store')) (payload store' m)))) }
        else
          { store := store', swarm := st.swarm, leaders := newLeaders }

/-- Heap-level `initialize_global_best` (lines 87-89): each swarm reference is
passed to `leaders.add` directly, with no call-site copy. -/
def initialize_global_best_heap {α : Type} [LinearOrder α] (cap : ℕ)
    (dens : List (Solution α) → Solution α → α) (st : HeapState α) : HeapState α :=
  st.swarm.foldl (fun s r => archive_add cap dens s r) st

/-- Heap-level `update_global_best` (lines 140-142): for each swarm reference,
`copy(particle)` allocates a fresh cell with the particle's payload, and that
fresh reference is passed to `leaders.add`. -/
def update_global_best_heap {α : Type} [LinearOrder α] (cap : ℕ)
    (dens : List (Solution α) → Solution α → α) (st : HeapState α) : HeapState α :=
  st.swarm.foldl
    (fun s r =>
      match s.store.get? r with
      | none => s
      | some p =>
          archive_add cap dens { s with store := s.store ++ [p] } s.store.length)
    st

/-- In-place mutation of one decision variable of swarm particle `i` — the
kind of later swarm mutation (position update, perturbation) claim C8 is
about. -/
def mutate_swarm_var {α : Type} (st : HeapState α) (i j : ℕ) (v : α) : HeapState α :=
  match st.swarm.get? i with
  | none => st
  | some r =>
      match st.store.get? r with
      | none => st
      | some p =>
          { st with store := st.store.set r { p with «variables» := p.«variables».set j v } }

/-- A concrete, fully well-formed one-particle, one-variable state on which
`update_velocity` is evaluated: live speed row `[10]`, the particle at
position `0` carrying a proper `"local_best"` attribute, and a two-member
leaders archive — nothing about the data itself would prevent a velocity
update. -/
noncomputable def c9_state : AlgoState ℝ :=
  ⟨[⟨[0], [0], [("local_best", ⟨[0], [0]⟩)]⟩],
   [⟨[0], [0], []⟩, ⟨[0], [0], []⟩], [[10]], 3, 7, 1⟩

/-- Invariant of the heap model relative to a fixed swarm reference list `sw`:
the state's swarm is `sw`, every swarm reference is live in the store, and no
archive member reference aliases a swarm reference. -/
def HeapInv {α : Type} (sw : List ℕ) (st : HeapState α) : Prop :=
  st.swarm = sw ∧ (∀ r ∈ sw, r < st.store.length) ∧ (∀ m ∈ st.leaders, m ∉ sw)

/-! ### Helper lemmas -/

lemma velocity_constriction_eq_none {α : Type} [LinearOrder α]
    {dmin dmax v : α} (h1 : v ≤ dmax) (h2 : dmin ≤ v) :
    velocity_constriction dmin dmax v = none := by
  show (if v < dmin then some dmin else if v > dmax then some dmax else none) = none
  rw [if_neg (not_lt.2 h2), if_neg (not_lt.2 h1)]

lemma constriction_coefficient_le_four {c1 c2 : ℝ} (h : c1 + c2 ≤ 4) :
    constriction_coefficient c1 c2 = 1 := by
  unfold constriction_coefficient
  rw [if_pos h]
  norm_num

lemma constriction_coefficient_at_rho_4_1 :
    constriction_coefficient 2.05 2.05 < 0 := by
  have h4 : ¬ ((2.05 : ℝ) + 2.05 ≤ 4) := by norm_num
  unfold constriction_coefficient
  rw [if_neg h4]
  apply div_neg_of_pos_of_neg
  · norm_num
  · have hs := Real.sqrt_nonneg (((2.05 : ℝ) + 2.05) ^ 2 - 4.0 * (2.05 + 2.05))
    nlinarith [hs]

lemma foldl_preserves {β σ : Type} (P : σ → Prop) (f : σ → β → σ)
    (hf : ∀ s b, P s → P (f s b)) :
    ∀ (l : List β) (s : σ), P s → P (l.foldl f s)
  | [], _, h => h
  | b :: l, s, h => foldl_preserves P f hf l (f s b) (hf s b h)

lemma archive_add_swarm_eq {α : Type} [LinearOrder α] (cap : ℕ)
    (dens : List (Solution α) → Solution α → α) (st : HeapState α) (r : ℕ) :
    (archive_add cap dens st r).swarm = st.swarm := by
  unfold archive_add
  cases hget : st.store.get? r with
  | none => rfl
  | some p => dsimp only; split_ifs <;> rfl

lemma archive_add_store_length {α : Type} [LinearOrder α] (cap : ℕ)
    (dens : List (Solution α) → Solution α → α) (st : HeapState α) (r : ℕ) :
    st.store.length ≤ (archive_add cap dens st r).store.length := by
  unfold archive_add
  cases hget : st.store.get? r with
  | none => exact le_rfl
  | some p => dsimp only; split_ifs <;> simp

lemma archive_add_leaders_mem {α : Type} [LinearOrder α] (cap : ℕ)
    (dens : List (Solution α) → Solution α → α) (st : HeapState α) (r : ℕ) :
    ∀ m ∈ (archive_add cap dens st r).leaders,
      m ∈ st.leaders ∨ m = st.store.length := by
  intro m hm
  unfold archive_add at hm
  cases hget : st.store.get? r with
  | none => rw [hget] at hm; exact Or.inl hm
  | some p =>
      rw [hget] at hm
      dsimp only at hm
      split_ifs at hm with hdom hcap
      · exact Or.inl hm
      · dsimp only at hm
        have hm' := List.eraseIdx_subset _ _ hm
        rcases List.mem_append.1 hm' with h | h
        · exact Or.inl (List.mem_of_mem_filter h)
        · exact Or.inr (List.mem_singleton.1 h)
      · dsimp only at hm
        rcases List.mem_append.1 hm with h | h
        · exact Or.inl (List.mem_of_mem_filter h)
        · exact Or.inr (List.mem_singleton.1 h)

lemma archive_add_heapInv {α : Type} [LinearOrder α] (cap : ℕ)
    (dens : List (Solution α) → Solution α → α) (sw : List ℕ)
    (st : HeapState α) (r : ℕ) (h : HeapInv sw st) :
    HeapInv sw (archive_add cap dens st r) := by
  obtain ⟨hsw, hval, hdisj⟩ := h
  refine ⟨(archive_add_swarm_eq cap dens st r).trans hsw, ?_, ?_⟩
  · intro q hq
    exact lt_of_lt_of_le (hval q hq) (archive_add_store_length cap dens st r)
  · intro m hm hmem
    rcases archive_add_leaders_mem cap dens st r m hm with h | h
    · exact hdisj m h hmem
    · exact absurd (hval m hmem) (by rw [h]; exact lt_irrefl _)

lemma heapInv_extend_store {α : Type} (sw : List ℕ) (st : HeapState α)
    (p : Solution α) (h : HeapInv sw st) :
    HeapInv sw { st with store := st.store ++ [p] } := by
  obtain ⟨hsw, hval, hdisj⟩ := h
  refine ⟨hsw, ?_, hdisj⟩
  intro q hq
  calc q < st.store.length := hval q hq
    _ ≤ (st.store ++ [p]).length := by simp

lemma initialize_global_best_heap_inv {α : Type} [LinearOrder α] (cap : ℕ)
    (dens : List (Solution α) → Solution α → α) (sw : List ℕ)
    (st : HeapState α) (h : HeapInv sw st) :
    HeapInv sw (initialize_global_best_heap cap dens st) := by
  have hsw := h.1
  unfold initialize_global_best_heap
  rw [hsw]
  exact foldl_preserves (HeapInv sw) _
    (fun s r hs => archive_add_heapInv cap dens sw s r hs) sw st h

lemma update_global_best_heap_inv {α : Type} [LinearOrder α] (cap : ℕ)
    (dens : List (Solution α) → Solution α → α) (sw : List ℕ)
    (st : HeapState α) (h : HeapInv sw st) :
    HeapInv sw (update_global_best_heap cap dens st) := by
  have hsw := h.1
  unfold update_global_best_heap
  rw [hsw]
  refine foldl_preserves (HeapInv sw) _ ?_ sw st h
  intro s r hs
  cases hget : s.store.get? r with
  | none => exact hs
  | some p =>
      exact archive_add_heapInv cap dens sw _ _ (heapInv_extend_store sw s p hs)

lemma mutate_swarm_var_payload {α : Type} (st : HeapState α) (i j : ℕ) (v : α)
    (m : ℕ) (hm : m ∉ st.swarm) :
    payload (mutate_swarm_var st i j v).store m = payload st.store m := by
  unfold mutate_swarm_var
  cases hg : st.swarm.get? i with
  | none => rfl
  | some r =>
      dsimp only
      cases hp : st.store.get? r with
      | none => rfl
      | some p =>
          have hr : r ∈ st.swarm := List.get?_mem hg
          have hne : r ≠ m := fun he => hm (he ▸ hr)
          unfold payload
          rw [List.getD_eq_getElem?_getD, List.getD_eq_getElem?_getD,
            List.getElem?_set_ne hne]

/-! ### The claims -/

/-- Claim C1: `update_position` is claimed to add `v[i][j]` to each variable by
index and clamp it into `[lower_bound[j], upper_bound[j]]`. In the code the
loop `for j in particle.variables` makes `j` range over the float variable
values, so the very first subscript `particle.variables[j]` raises `TypeError`:
on a particle with one variable `1/2`, one velocity entry `0` and bounds
`[0, 1]` (reversal factors `-1`), the position update fails instead of
updating and clamping. -/
theorem C1_update_position_float_subscript :
    update_position_particle ([0] : List ℚ) [1] (-1) (-1) [1/2] [0] = none := rfl

/-- Claim C2: `__velocity_constriction` is claimed to return the value
unchanged when it lies inside `[delta_min[j], delta_max[j]]`. The code
initializes `result = None` and only overwrites it in the two out-of-range
branches, so for `delta_min = -1`, `delta_max = 1` and in-range value `0` it
returns Python `None` rather than `0`. -/
theorem C2_velocity_constriction_none_inside_range :
    velocity_constriction (-1 : ℚ) 1 0 = none := rfl

/-- Claim C3 as stated is false at its own concrete input: with
`c1 = c2 = 2.05` (so `rho = 4.1`) the constriction coefficient is not strictly
greater than 1 — the code's formula `2 / (2 - rho - sqrt(rho² - 4·rho))` has a
negative denominator, so the result is negative. -/
theorem C3_counterexample : ¬ (1 < constriction_coefficient 2.05 2.05) := by
  have h := constriction_coefficient_at_rho_4_1
  linarith

/-- Claim C3 (amended): `__constriction_coefficient` returns exactly `1.0`
whenever `c1 + c2 ≤ 4` (in particular at `c1 = c2 = 1.0`), and at
`c1 + c2 = 4.1` it returns a real value that is strictly negative
(approximately `-0.73`), not a value greater than 1. -/
theorem C3_constriction_coefficient :
    (∀ c1 c2 : ℝ, c1 + c2 ≤ 4 → constriction_coefficient c1 c2 = 1) ∧
    constriction_coefficient 2.05 2.05 < 0 :=
  ⟨fun _ _ h => constriction_coefficient_le_four h,
   constriction_coefficient_at_rho_4_1⟩

/-- Witness for C3: the hypothesis `c1 + c2 ≤ 4` holds at `c1 = c2 = 1` and
there the coefficient is exactly `1`. -/
theorem C3_constriction_coefficient_witness :
    ((1 : ℝ) + 1 ≤ 4) ∧ constriction_coefficient 1 1 = 1 :=
  ⟨by norm_num, C3_constriction_coefficient.1 1 1 (by norm_num)⟩

/-- Claim C5: `update_particle_best` is claimed to replace `local_best[i]`
exactly when the dominance flag is not `+1`. The code reads the best through
the nonexistent field `self.swarm[i].attribute` (the entity's field is
`attributes`), so on any swarm with at least one particle the method raises
`AttributeError` before any comparison: here a one-particle state whose
particle even carries a proper `"local_best"` attribute. -/
theorem C5_update_particle_best_attribute_error :
    update_particle_best
      (⟨[⟨[0], [0], [("local_best", ⟨[0], [0]⟩)]⟩], [], [[0]], 0, 10, 1⟩ : AlgoState ℚ)
      [⟨[0], [0], [("local_best", ⟨[0], [0]⟩)]⟩] = none := rfl

/-- Claim C6: `is_stopping_condition_reached` is exactly
`evaluations ≥ max_evaluations`, but `get_result` has no `return` statement, so
it returns Python `None` for every state — not the Leaders archive membership
the claim describes (shown here also on a state whose archive is nonempty). -/
theorem C6_stopping_iff_but_result_none :
    (∀ st : AlgoState ℚ, is_stopping_condition_reached st = true ↔
      st.evaluations ≥ st.max_evaluations) ∧
    (∀ st : AlgoState ℚ, get_result st = none) ∧
    get_result (⟨[], [⟨[0], [0], []⟩], [], 5, 5, 1⟩ : AlgoState ℚ) = none :=
  ⟨fun st => by simp [is_stopping_condition_reached],
   fun _ => rfl, rfl⟩

/-- Claim C7 as stated is false at a one-member archive: the claimed
degradation to a repeated selection of the single member does not happen —
the `Random.sample` class-call raises `TypeError` before any drawing, so the
selection fails and returns no solution at all. -/
theorem C7_counterexample :
    select_global_best (fun _ _ => 0) [(⟨[0], [0], []⟩ : Solution ℚ)] = none := rfl

/-- Claim C7 (amended): `__select_global_best` never returns a solution — the
call `Random.sample(self.leaders.solution_list, 2)` invokes `sample` on the
`random.Random` class, binding the archive list to `self` and `2` to
`population` with the required `k` argument missing, so every call raises
`TypeError`, for every archive size and comparator; in particular an archive
with exactly one member does not degrade to a repeated selection, and no
tournament among two drawn members ever takes place. -/
theorem C7_select_global_best_always_fails :
    ∀ (cmp : Solution ℚ → Solution ℚ → Int) (leaders : List (Solution ℚ)),
      select_global_best cmp leaders = none :=
  fun _ _ => rfl

/-- Claim C10: `initialize_global_best`, `initialize_particle_best`,
`perturbation` and `update_global_best` ignore their `swarm` parameter: each
reads and mutates only the internally stored swarm and archive, so any two
argument lists produce the identical state change. -/
theorem C10_swarm_parameter_ignored :
    (∀ (cap : ℕ) (dens : List (Solution ℚ) → Solution ℚ → ℚ)
        (st : AlgoState ℚ) (a b : List (Solution ℚ)),
      initialize_global_best cap dens st a = initialize_global_best cap dens st b) ∧
    (∀ (st : AlgoState ℚ) (a b : List (Solution ℚ)),
      initialize_particle_best st a = initialize_particle_best st b) ∧
    (∀ (mutOp : Solution ℚ → Solution ℚ) (st : AlgoState ℚ)
        (a b : List (Solution ℚ)),
      perturbation mutOp st a = perturbation mutOp st b) ∧
    (∀ (cap : ℕ) (dens : List (Solution ℚ) → Solution ℚ → ℚ)
        (st : AlgoState ℚ) (a b : List (Solution ℚ)),
      update_global_best cap dens st a = update_global_best cap dens st b) :=
  ⟨fun _ _ _ _ _ => rfl, fun _ _ _ => rfl, fun _ _ _ _ => rfl,
   fun _ _ _ _ _ => rfl⟩

/-- Claim C4: each new velocity is claimed to equal the clamped value of
`χ(c1,c2)·(w·v_old + c1·r1·(local_best − x) + c2·r2·(global_best − x))` with
`w = 0.1`. Because `__velocity_constriction` returns `None` for every raw
velocity inside `[delta_min[j], delta_max[j]]` (claim C2), the numpy
assignment `self.speed[i][var] = None` raises `TypeError` whenever the raw
velocity is in range: here one variable with bounds `[0, 2]`
(`delta_max = 1`), zero previous speed and `x = local_best = global_best`, so
the raw velocity is `χ·0 = 0` and the update fails instead of storing a
clamped value. -/
theorem C4_update_velocity_row_type_error :
    update_velocity_row [0] [2] 1 1 1 1 [1/2] [1/2] [1/2] 1 [0] = none := by
  have hdmax : delta_max ([0] : List ℝ) [2] 0 = 1 := by
    norm_num [delta_max]
  have hdmin : delta_min ([0] : List ℝ) [2] 0 = -1 := by
    norm_num [delta_min, delta_max]
  have hclamp : velocity_constriction (delta_min ([0] : List ℝ) [2] 0)
      (delta_max ([0] : List ℝ) [2] 0) (0 : ℝ) = none :=
    velocity_constriction_eq_none (by rw [hdmax]; norm_num) (by rw [hdmin]; norm_num)
  simp [update_velocity_row, List.range_succ, hclamp]

/-- Claim C9: `update_velocity` is claimed to mutate only the velocity matrix
`self.speed`, leaving the swarm solutions untouched because it reads through
copies. In fact a call with any particle raises `TypeError` at
`__select_global_best` (line 102; and would raise again at the
`Random.random()` / `Random.uniform()` class-calls of lines 104-108) before
the first assignment to `self.speed`: on a fully well-formed one-particle
state — proper `"local_best"` attribute, two archive members, live speed
row — the call fails, so it never mutates anything, not even the velocity
matrix it is supposed to update. -/
theorem C9_update_velocity_type_error :
    update_velocity (fun _ _ => 0) [0] [1] 1 c9_state [] = none := by
  simp [update_velocity, select_global_best, Random_sample_classcall,
    c9_state, py_copy, List.lookup, List.range_succ]

/-- Claim C8: every solution the loop inserts into the Leaders archive — when
seeding it from the initial swarm (`initialize_global_best`) and when updating
it each generation (`update_global_best`) — ends up as an independent copy,
because the spec-modelled `BoundedArchive.add` deep-copies on insertion
(spec section 4.3): starting from a state whose live archive references do not
alias swarm references (the loop starts with an empty archive), the archive
references stay disjoint from the swarm's, so a later in-place mutation of any
swarm particle's decision variable leaves every archived member's payload
unchanged. -/
theorem C8_archive_members_isolated (cap : ℕ)
    (dens : List (Solution ℚ) → Solution ℚ → ℚ) (st : HeapState ℚ)
    (hval : ∀ r ∈ st.swarm, r < st.store.length)
    (hdisj : ∀ m ∈ st.leaders, m ∉ st.swarm) :
    (∀ (i j : ℕ) (v : ℚ) (m : ℕ),
        m ∈ (initialize_global_best_heap cap dens st).leaders →
        payload (mutate_swarm_var (initialize_global_best_heap cap dens st) i j v).store m =
          payload (initialize_global_best_heap cap dens st).store m) ∧
    (∀ (i j : ℕ) (v : ℚ) (m : ℕ),
        m ∈ (update_global_best_heap cap dens st).leaders →
        payload (mutate_swarm_var (update_global_best_heap cap dens st) i j v).store m =
          payload (update_global_best_heap cap dens st).store m) := by
  have h0 : HeapInv st.swarm st := ⟨rfl, hval, hdisj⟩
  constructor
  · intro i j v m hm
    have h1 := initialize_global_best_heap_inv cap dens st.swarm st h0
    exact mutate_swarm_var_payload _ i j v m (by rw [h1.1]; exact h1.2.2 m hm)
  · intro i j v m hm
    have h1 := update_global_best_heap_inv cap dens st.swarm st h0
    exact mutate_swarm_var_payload _ i j v m (by rw [h1.1]; exact h1.2.2 m hm)

/-- Witness for C8: a one-particle heap state with a live swarm reference and
an initially empty archive satisfies both hypotheses. -/
theorem C8_archive_members_isolated_witness :
    ((∀ r ∈ ([0] : List ℕ), r < 1) ∧ (∀ m ∈ ([] : List ℕ), m ∉ ([0] : List ℕ))) ∧
    ((∀ (i j : ℕ) (v : ℚ) (m : ℕ),
        m ∈ (initialize_global_best_heap 2 (fun _ _ => 0)
              (⟨[⟨[0], [0], []⟩], [0], []⟩ : HeapState ℚ)).leaders →
        payload (mutate_swarm_var
            (initialize_global_best_heap 2 (fun _ _ => 0)
              (⟨[⟨[0], [0], []⟩], [0], []⟩ : HeapState ℚ)) i j v).store m =
          payload (initialize_global_best_heap 2 (fun _ _ => 0)
              (⟨[⟨[0], [0], []⟩], [0], []⟩ : HeapState ℚ)).store m) ∧
     (∀ (i j : ℕ) (v : ℚ) (m : ℕ),
        m ∈ (update_global_best_heap 2 (fun _ _ => 0)
              (⟨[⟨[0], [0], []⟩], [0], []⟩ : HeapState ℚ)).leaders →
        payload (mutate_swarm_var
            (update_global_best_heap 2 (fun _ _ => 0)
              (⟨[⟨[0], [0], []⟩], [0], []⟩ : HeapState ℚ)) i j v).store m =
          payload (update_global_best_heap 2 (fun _ _ => 0)
              (⟨[⟨[0], [0], []⟩], [0], []⟩ : HeapState ℚ)).store m)) :=
  ⟨⟨by decide, by decide⟩,
   C8_archive_members_isolated 2 (fun _ _ => 0) ⟨[⟨[0], [0], []⟩], [0], []⟩
     (by decide) (by decide)⟩

end SMPSO
